import Mathlib

/-!
Verification of the units-of-measure core of the galatea repository.

The Python source is shallowly embedded: numeric magnitudes (Python floats)
are modelled as exact rationals `ℚ`, Python exceptions as an explicit error
type threaded through `Except`, and the process-wide operator-registry state
(class-level dicts populated by `register` calls) as an explicit association
list passed to the resolution functions.  Unit-variant enums are embedded as
the concrete lists of `(name, display, factor)` records declared in
`src/units/measures.py`, in declaration order (Python `Enum` iteration order).
-/

namespace Galatea

/-- The `Dimension` enum of `src/units/dimensions.py`. -/
inductive Dimension where
  | LENGTH
  | STRESS
  | SPECIFIC_WEIGHT
  | STRAIN
  | ENERGY_DENSITY
deriving DecidableEq

/-- The Python `Enum.name` attribute of a `Dimension` member, used in
registry error messages (`a.dimension.name`). -/
def Dimension.name : Dimension → String
  | .LENGTH => "LENGTH"
  | .STRESS => "STRESS"
  | .SPECIFIC_WEIGHT => "SPECIFIC_WEIGHT"
  | .STRAIN => "STRAIN"
  | .ENERGY_DENSITY => "ENERGY_DENSITY"

/-- One member of a `BaseUnit` enum (`src/units/base_models.py`):
its Python member name, its `display` string and its `factor` to base units. -/
structure UnitVariant where
  name : String
  display : String
  factor : ℚ
deriving DecidableEq

/-- The concrete `BaseMeasure` subclasses of `src/units/measures.py`:
`Strain`, `Stress`, `SpecificWeight`, `EnergyDensity`, `Length`. -/
inductive MeasureKind where
  | Strain
  | Stress
  | SpecificWeight
  | EnergyDensity
  | Length
deriving DecidableEq

/-- The `_unit_enum` table of each measure subclass, as declared in
`src/units/measures.py`, in member-declaration order. -/
def MeasureKind.unitEnum : MeasureKind → List UnitVariant
  | .Strain => [⟨"NONE", "", 1⟩]
  | .Stress =>
      [⟨"Pa", "Pa", 1⟩, ⟨"kPa", "kPa", 1000⟩, ⟨"MPa", "MPa", 1000000⟩,
       ⟨"kg_cm2", "kg/cm²", 98066.5⟩]
  | .SpecificWeight =>
      [⟨"N_m3", "N/m³", 1⟩, ⟨"kN_m3", "kN/m³", 1000⟩, ⟨"kg_m3", "kg/m³", 9.80665⟩,
       ⟨"kg_cm3", "kg/cm³", 9806650⟩, ⟨"g_cm3", "g/cm³", 9806.650⟩]
  | .EnergyDensity => [⟨"J_m3", "J/m³", 1⟩, ⟨"Pa", "Pa", 1⟩]
  | .Length => [⟨"m", "m", 1⟩, ⟨"cm", "cm", 0.01⟩, ⟨"mm", "mm", 0.001⟩]

/-- The `dimension` class attribute of each measure subclass. -/
def MeasureKind.dimension : MeasureKind → Dimension
  | .Strain => .STRAIN
  | .Stress => .STRESS
  | .SpecificWeight => .SPECIFIC_WEIGHT
  | .EnergyDensity => .ENERGY_DENSITY
  | .Length => .LENGTH

/-- The Python class name of the `_unit_enum` attribute of each measure
subclass.  The unit-enum classes are in bijection with the measure
subclasses, so `self._unit_enum is other._unit_enum` (CPython object
identity of the enum classes) is equivalent to equality of these names. -/
def MeasureKind.enumName : MeasureKind → String
  | .Strain => "Dimensionless"
  | .Stress => "StressUnit"
  | .SpecificWeight => "SpecificWeightUnit"
  | .EnergyDensity => "EnergyDensityUnit"
  | .Length => "LengthUnit"

/-- The Python class name of each measure subclass
(`self.__class__.__name__`). -/
def MeasureKind.className : MeasureKind → String
  | .Strain => "Strain"
  | .Stress => "Stress"
  | .SpecificWeight => "SpecificWeight"
  | .EnergyDensity => "EnergyDensity"
  | .Length => "Length"

/-- The Python exceptions the embedded code can raise.  `unsupportedOperand`
is the `TypeError` the interpreter itself raises when a dunder method
returns `NotImplemented` and no reflected handler exists. -/
inductive PyError where
  | valueError (msg : String)
  | typeError (msg : String)
  | keyError (key : String)
  | indexError
  | stopIteration
  | unsupportedOperand (op : String) (lhs : String) (rhs : String)
deriving DecidableEq

/-- Lookup of a unit token among the enum member names
(Python `tok in enum.__members__` / `enum.__members__[tok]`). -/
def lookupByName (table : List UnitVariant) (tok : String) : Option UnitVariant :=
  table.find? (fun v => v.name == tok)

/-- Lookup of a unit token among the `display` strings, first match in
member order (the list comprehension in `BaseMeasure.__post_init__` and the
member loop in `BaseMeasure.convert`). -/
def lookupByDisplay (table : List UnitVariant) (tok : String) : Option UnitVariant :=
  table.find? (fun v => v.display == tok)

/-- Unit-token resolution of `BaseMeasure.__post_init__` and
`BaseMeasure.convert`: exact member-name match first, then exact
display-string match. -/
def lookupUnit (table : List UnitVariant) (tok : String) : Option UnitVariant :=
  match lookupByName table tok with
  | some v => some v
  | none => lookupByDisplay table tok

/-- A constructed `BaseMeasure`: the dataclass fields `value` and `unit`
plus the parsed member stored by `__post_init__` as `user_unit` (from which
`factor` and `display_unit` are derived). -/
structure Measure where
  kind : MeasureKind
  value : ℚ
  unit : String
  userUnit : UnitVariant
deriving DecidableEq

/-- `self.factor` (set to the parsed member's `factor` by `__post_init__`). -/
def Measure.factor (m : Measure) : ℚ := m.userUnit.factor

/-- `self.display_unit` (set by `__post_init__`). -/
def Measure.displayUnit (m : Measure) : String := m.userUnit.display

/-- `BaseMeasure.to_base_units`: `value * factor`. -/
def Measure.toBaseUnits (m : Measure) : ℚ := m.value * m.factor

/-- The message of the `ValueError` raised by `__post_init__` on an
unresolvable token: `f"Unknown unit: {self.unit} in {child_unit_class}"`
(the enum class renders as `<enum 'ClassName'>`). -/
def unknownUnitMsg (tok enumName : String) : String :=
  "Unknown unit: " ++ tok ++ " in <enum \x27" ++ enumName ++ "\x27>"

/-- `BaseMeasure.__init__` plus `__post_init__`: resolve the unit token by
name then by display string, storing the parsed member, or raise
`ValueError` on no match. -/
def mkMeasure (k : MeasureKind) (v : ℚ) (u : String) : Except PyError Measure :=
  match lookupUnit k.unitEnum u with
  | some parsed => .ok ⟨k, v, u, parsed⟩
  | none => .error (.valueError (unknownUnitMsg u k.enumName))

/-- A measure is valid when its stored `userUnit` is what its token
resolves to; every measure produced by `mkMeasure` is valid. -/
def Measure.Valid (m : Measure) : Prop :=
  lookupUnit m.kind.unitEnum m.unit = some m.userUnit

/-- The message of the `ValueError` raised by `BaseMeasure.convert` on an
unresolvable destination unit. -/
def convertErrMsg (dest clsName : String) : String :=
  "Unit \x27" ++ dest ++ "\x27 is not valid for " ++ clsName

/-- `BaseMeasure.convert` (string destination): resolve the target by name
then display, compute `value * factor / target.factor`, and construct a new
instance of the same subclass from the target's display string. -/
def Measure.convert (m : Measure) (destUnit : String) : Except PyError Measure :=
  match lookupUnit m.kind.unitEnum destUnit with
  | none => .error (.valueError (convertErrMsg destUnit m.kind.className))
  | some target => mkMeasure m.kind (m.value * m.factor / target.factor) target.display

/-- `BaseMeasure.__add__`: same unit-enum check, base-unit sum rescaled by
the left operand's factor, reconstructed with the left operand's token. -/
def Measure.add (a b : Measure) : Except PyError Measure :=
  if a.kind.enumName ≠ b.kind.enumName then
    .error (.typeError "Cannot add different physical dimensions")
  else
    mkMeasure a.kind ((a.toBaseUnits + b.toBaseUnits) / a.factor) a.unit

/-- `BaseMeasure.__sub__`. -/
def Measure.sub (a b : Measure) : Except PyError Measure :=
  if a.kind.enumName ≠ b.kind.enumName then
    .error (.typeError "Cannot subtract different physical dimensions")
  else
    mkMeasure a.kind ((a.toBaseUnits - b.toBaseUnits) / a.factor) a.unit

/-- The right-hand operand of `__mul__` / `__truediv__` / comparisons:
a plain Python number (`int` or `float`) or another `BaseMeasure`. -/
inductive Operand where
  | scalar (x : ℚ)
  | measure (m : Measure)

/-- The registry rule table: an ordered-pair-of-dimensions key mapped to a
result measure subclass.  Python dict assignment overwrites, so the state is
an association list with the most recent registration in front. -/
abbrev Rules := List ((Dimension × Dimension) × MeasureKind)

/-- Dict lookup `cls._rules[key]` / `key in cls._rules`. -/
def lookupRule (rules : Rules) (key : Dimension × Dimension) : Option MeasureKind :=
  (rules.find? (fun e => decide (e.1 = key))).map Prod.snd

/-- `MultiplicationRegistry.register` (both `src/units/registry.py` and
`src/units/registries.py` have the same body): store
`(left.dimension, right.dimension) -> result`, and the swapped key too when
`symmetric` is true. -/
def mulRegister (rules : Rules) (left right result : MeasureKind)
    (symmetric : Bool) : Rules :=
  let rules1 := ((left.dimension, right.dimension), result) :: rules
  if symmetric then ((right.dimension, left.dimension), result) :: rules1 else rules1

/-- The `TypeError` message of `MultiplicationRegistry.resolve` on a
missing rule. -/
def noMulRuleMsg (l r : String) : String :=
  "No multiplication rule for " ++ l ++ " × " ++ r

/-- `MultiplicationRegistry.resolve` of `src/units/registry.py` — the class
imported by `BaseMeasure.__mul__`.  On a hit it computes
`a.to_base_units() * b.to_base_units()` and constructs the result class
from `result_cls._unit_enum.__members__["Pa"].display`: the member name
`"Pa"` is hardcoded, and the subscription raises `KeyError` when the result
kind's enum has no member named `Pa`. -/
def mulResolve (rules : Rules) (a b : Measure) : Except PyError Measure :=
  match lookupRule rules (a.kind.dimension, b.kind.dimension) with
  | none =>
      .error (.typeError (noMulRuleMsg a.kind.dimension.name b.kind.dimension.name))
  | some resultKind =>
      let baseValue := a.toBaseUnits * b.toBaseUnits
      match lookupByName resultKind.unitEnum "Pa" with
      | none => .error (.keyError "Pa")
      | some paMember => mkMeasure resultKind baseValue paMember.display

/-- `DivisionRegistry.register` of `src/units/registries.py`: no symmetric
variant, no automatic inverse derivation. -/
def divRegister (rules : Rules) (num den result : MeasureKind) : Rules :=
  ((num.dimension, den.dimension), result) :: rules

/-- The `TypeError` message of `DivisionRegistry.resolve` on a missing
rule. -/
def noDivRuleMsg (l r : String) : String :=
  "No division rule for " ++ l ++ " ÷ " ++ r

/-- `DivisionRegistry.resolve` of `src/units/registries.py`: on a hit it
computes `a.to_base_units() / b.to_base_units()` and constructs the result
class from `next(iter(result_cls._unit_enum)).display` (the first declared
member, which in every table of `src/units/measures.py` is the base unit). -/
def divResolve (rules : Rules) (a b : Measure) : Except PyError Measure :=
  match lookupRule rules (a.kind.dimension, b.kind.dimension) with
  | none =>
      .error (.typeError (noDivRuleMsg a.kind.dimension.name b.kind.dimension.name))
  | some resultKind =>
      let baseValue := a.toBaseUnits / b.toBaseUnits
      match resultKind.unitEnum.head? with
      | none => .error .stopIteration
      | some first => mkMeasure resultKind baseValue first.display

/-- `BaseMeasure.__mul__`: a plain number scales `value` directly with the
unit unchanged (reconstructing from the same token); another measure defers
to `MultiplicationRegistry.resolve` of `src/units/registry.py`. -/
def Measure.mul (rules : Rules) (m : Measure) (other : Operand) : Except PyError Measure :=
  match other with
  | .scalar x => mkMeasure m.kind (m.value * x) m.unit
  | .measure b => mulResolve rules m b

/-- `BaseMeasure.__rmul__`: literally `return self.__mul__(other)`. -/
def Measure.rmul (rules : Rules) (m : Measure) (other : Operand) : Except PyError Measure :=
  Measure.mul rules m other

/-- `BaseMeasure.__truediv__`: a plain number divides `value` directly; for
any other operand — including another `BaseMeasure` — the method returns
`NotImplemented` (the division registry is never consulted; the source
carries `TODO: IMPLEMENT DIVISION BETWEEN DIFFERENT UNITS (REGISTRY)`), so
the interpreter raises `TypeError: unsupported operand type(s)`. -/
def Measure.truediv (m : Measure) (other : Operand) : Except PyError Measure :=
  match other with
  | .scalar x => mkMeasure m.kind (m.value / x) m.unit
  | .measure b =>
      .error (.unsupportedOperand "/" m.kind.className b.kind.className)

/-- `BaseMeasure._cmp_value`: another measure must share the unit enum and
contributes its base-unit magnitude; a plain number is used as-is
(`float(other)`). -/
def Measure.cmpValue (a : Measure) (other : Operand) : Except PyError ℚ :=
  match other with
  | .scalar x => .ok x
  | .measure b =>
      if a.kind.enumName ≠ b.kind.enumName then
        .error (.typeError "Cannot compare different physical dimensions")
      else
        .ok b.toBaseUnits

/-- `BaseMeasure.__eq__`: `self.to_base_units() == self._cmp_value(other)`. -/
def Measure.eq (a : Measure) (other : Operand) : Except PyError Bool :=
  (a.cmpValue other).map (fun x => decide (a.toBaseUnits = x))

/-- `BaseMeasure.__hash__` hashes the tuple
`(self.to_base_units(), self._unit_enum)`; we model the hashed tuple itself
(Python guarantees equal tuples have equal hashes). -/
def Measure.hash (m : Measure) : ℚ × String :=
  (m.toBaseUnits, m.kind.enumName)

/-- The rule table produced by the `register` calls of
`src/units/mul_registry.py`, in order:
`SpecificWeight × Length → Stress` and `Length × Strain → Length`, both
with the default `symmetric=True`. -/
def mulRegistryRules : Rules :=
  mulRegister (mulRegister [] .SpecificWeight .Length .Stress true) .Length .Strain .Length true

/-- The rule table produced by the `register` calls of
`src/units/div_registry.py`, in order: `Stress ÷ Length → SpecificWeight`,
`Stress ÷ Strain → Stress`, `Length ÷ Length → Strain`. -/
def divRegistryRules : Rules :=
  divRegister (divRegister (divRegister [] .Stress .Length .SpecificWeight) .Stress .Strain .Stress) .Length .Length .Strain

/-- A `BaseTensor`: the dataclass fields `data` (a dense array, modelled as
a flat list of rationals) and `unit`, plus the element measure subclass
returned by the `_element_type` classmethod.  `BaseTensor._element_type`
itself returns `None`; the concrete subclasses (`StressTensor`,
`StrainTensor`, used by `src/geo/medios_continuos.py` and declared —
commented out — in `src/units/measures.py` and `src/tests/test_tensor.py`)
override it to return their element class, which we model as the
`elementKind` field. -/
structure Tensor where
  elementKind : Option MeasureKind
  data : List ℚ
  unit : Option String
deriving DecidableEq

/-- The class name used in `BaseTensor` error messages
(`self.__class__.__name__`). -/
def tensorClassName : Option MeasureKind → String
  | some k => k.className ++ "Tensor"
  | none => "BaseTensor"

/-- The `Valid options: ...` listing in the `__post_init__` error message:
`f"{u.name}('{u.display}')"` joined by `", "`. -/
def validOptionsStr (table : List UnitVariant) : String :=
  String.intercalate ", " (table.map (fun u => u.name ++ "(\x27" ++ u.display ++ "\x27)"))

/-- The `ValueError` message of `BaseTensor.__post_init__` for a unit that
is invalid for the element type. -/
def invalidTensorUnitMsg (u tensorCls elemCls options : String) : String :=
  "Unit \x27" ++ u ++ "\x27 is invalid for " ++ tensorCls ++ " (Element: " ++
    elemCls ++ ").\nValid options: " ++ options

/-- `BaseTensor.__init__` plus `__post_init__`: the data is stored exactly
as given (`np.array(self.data, dtype=float)` — no rescaling of any kind);
when both a unit and an element type are present the unit must match some
member's name or display string, with a blank unit accepted when the enum
has a blank-display member (dimensionless strain). -/
def mkTensor (ek : Option MeasureKind) (data : List ℚ) (unit : Option String) :
    Except PyError Tensor :=
  match unit with
  | none => .ok ⟨ek, data, none⟩
  | some u =>
      match ek with
      | none => .ok ⟨ek, data, some u⟩
      | some k =>
          let table := k.unitEnum
          let isValid := table.any (fun mem => mem.name == u || mem.display == u)
          let isValid := isValid || (u == "" && table.any (fun mem => mem.display == ""))
          if isValid then .ok ⟨ek, data, some u⟩
          else
            .error (.valueError
              (invalidTensorUnitMsg u (tensorClassName ek) k.className
                (validOptionsStr table)))

/-- An element passed to `BaseTensor.from_list` or `__setitem__`: a measure
or a plain number. -/
inductive TensorValue where
  | measure (m : Measure)
  | num (x : ℚ)
deriving DecidableEq

/-- `BaseTensor._to_float`: anything with `to_base_units` contributes its
base-unit magnitude (measures); a plain number is used as-is. -/
def toFloat : TensorValue → ℚ
  | .measure m => m.toBaseUnits
  | .num x => x

/-- `BaseTensor.from_array`: `return cls(array, unit)` — the raw values go
into `data` unchanged. -/
def Tensor.fromArray (ek : Option MeasureKind) (array : List ℚ)
    (unit : Option String) : Except PyError Tensor :=
  mkTensor ek array unit

/-- Modelled from the spec: what §4.4 Construct says the raw-array path
does — "store magnitudes converted to base units internally regardless of
the declared display unit", i.e. each raw value is multiplied by the
declared display unit's factor.  Stated only for comparison with
`Tensor.fromArray` above, which embeds the actual source and stores the raw
values unchanged. -/
def Tensor.fromArraySpec (ek : Option MeasureKind) (array : List ℚ)
    (unit : Option String) : Except PyError Tensor :=
  match ek, unit with
  | some k, some u =>
      match lookupUnit k.unitEnum u with
      | some target => mkTensor ek (array.map (fun x => x * target.factor)) unit
      | none => mkTensor ek array unit
  | _, _ => mkTensor ek array unit

/-- `BaseTensor.from_list` (flat list): when no unit is given it is
inferred from the first element's `display_unit` (measures) and stays
`None` for plain numbers; an empty list with no unit raises `IndexError`
at `flat_data[0]`; the stored data is the elements mapped through
`_to_float`. -/
def Tensor.fromList (ek : Option MeasureKind) (data : List TensorValue)
    (unit : Option String) : Except PyError Tensor :=
  match unit, data.head? with
  | none, none => .error .indexError
  | none, some first =>
      let inferred := match first with
        | .measure m => some m.displayUnit
        | .num _ => none
      mkTensor ek (data.map toFloat) inferred
  | some u, _ => mkTensor ek (data.map toFloat) (some u)

/-- The factor lookup inside `BaseTensor.__getitem__` and `__repr__`:
iterate the members checking `u.display == self.unit or u.name == self.unit`
and keep 1.0 when nothing matches. -/
def unitFactor (table : List UnitVariant) (u : String) : ℚ :=
  match table.find? (fun mem => mem.display == u || mem.name == u) with
  | some mem => mem.factor
  | none => 1

/-- The result of scalar indexing into a tensor. -/
inductive Item where
  | measureItem (m : Measure)
  | floatItem (x : ℚ)
deriving DecidableEq

/-- `BaseTensor.__getitem__` at an integer index (scalar result): when the
tensor has an element type and a truthy unit (a blank unit string is falsy
in Python), the stored value is divided by the display unit's factor and
re-wrapped as a measure of the element class; otherwise a bare float. -/
def Tensor.getItem (t : Tensor) (i : Nat) : Except PyError Item :=
  match t.data.get? i with
  | none => .error .indexError
  | some x =>
      match t.elementKind, t.unit with
      | some k, some u =>
          if u = "" then .ok (.floatItem x)
          else (mkMeasure k (x / unitFactor k.unitEnum u) u).map .measureItem
      | _, _ => .ok (.floatItem x)

/-- `BaseTensor.__setitem__`: `self.data[key] = self._to_float(value)` —
always stores the base-unit magnitude of a measure, a plain number as-is. -/
def Tensor.setItem (t : Tensor) (i : Nat) (v : TensorValue) : Tensor :=
  { t with data := t.data.set i (toFloat v) }

/-- The `ValueError` message of `BaseTensor.convert` for an incompatible
unit. -/
def tensorConvertMsg (dest elemCls : String) : String :=
  "Unit \x27" ++ dest ++ "\x27 is incompatible with " ++ elemCls

/-- `BaseTensor.convert` (string destination): resolves the destination
against the element type's enum (name first, then display) and rebuilds the
tensor with the same `data` and the resolved display string — a pure
relabeling, the stored magnitudes never change. -/
def Tensor.convert (t : Tensor) (destUnit : String) : Except PyError Tensor :=
  match t.elementKind with
  | some k =>
      match lookupUnit k.unitEnum destUnit with
      | some target => mkTensor t.elementKind t.data (some target.display)
      | none => .error (.valueError (tensorConvertMsg destUnit k.className))
  | none => mkTensor none t.data (some destUnit)

/-- The four elementwise arithmetic operators. -/
inductive TensorBinOp where
  | add
  | sub
  | mul
  | div
deriving DecidableEq

/-- The operator symbol, for the interpreter's `TypeError` message. -/
def TensorBinOp.symbol : TensorBinOp → String
  | .add => "+"
  | .sub => "-"
  | .mul => "*"
  | .div => "/"

/-- Elementwise arithmetic between tensors.  `BaseTensor`
(`src/units/base_models.py`, lines 186–368) defines no `__add__`,
`__sub__`, `__mul__`, `__truediv__` (nor any reflected form), and
`@dataclass` generates no arithmetic methods, so for every pair of tensors
— whatever their shapes, units or element kinds — Python's binary-operator
protocol finds no handler and raises
`TypeError: unsupported operand type(s)`. -/
def Tensor.binOp (op : TensorBinOp) (t1 t2 : Tensor) : Except PyError Tensor :=
  .error (.unsupportedOperand op.symbol (tensorClassName t1.elementKind)
    (tensorClassName t2.elementKind))

/-- Substring occurrence over character lists (used to state what an error
message does and does not mention). -/
def leadsWith : List Char → List Char → Bool
  | [], _ => true
  | _ :: _, [] => false
  | a :: as, b :: bs => a == b && leadsWith as bs

/-- `listContainsSub needle hay` holds when `needle` occurs contiguously
inside `hay`. -/
def listContainsSub (needle : List Char) : List Char → Bool
  | [] => needle.isEmpty
  | c :: rest => leadsWith needle (c :: rest) || listContainsSub needle rest

/-- Inversion of a successful construction: the measure carries the given
kind, value and token, and the token resolves to its stored member. -/
theorem mkMeasure_ok {k : MeasureKind} {v : ℚ} {u : String} {m : Measure}
    (h : mkMeasure k v u = .ok m) :
    m.kind = k ∧ m.value = v ∧ m.unit = u ∧
      lookupUnit k.unitEnum u = some m.userUnit := by
  unfold mkMeasure at h
  split at h
  · next parsed heq =>
      cases h
      exact ⟨rfl, rfl, rfl, heq⟩
  · cases h

/-- A resolvable token makes construction succeed with the resolved
member stored. -/
theorem mkMeasure_of_lookup {k : MeasureKind} {u : String} {p : UnitVariant}
    (v : ℚ) (h : lookupUnit k.unitEnum u = some p) :
    mkMeasure k v u = .ok ⟨k, v, u, p⟩ := by
  unfold mkMeasure
  rw [h]

/-- Resolved members belong to the table. -/
theorem lookupUnit_mem {table : List UnitVariant} {tok : String} {p : UnitVariant}
    (h : lookupUnit table tok = some p) : p ∈ table := by
  unfold lookupUnit at h
  split at h
  · next v heq =>
      cases h
      exact List.mem_of_find?_eq_some heq
  · exact List.mem_of_find?_eq_some h

/-- Every unit factor in every table of `src/units/measures.py` is
positive. -/
theorem factor_pos : ∀ (k : MeasureKind), ∀ var ∈ k.unitEnum, 0 < var.factor := by
  intro k var h
  cases k with
  | Strain =>
      simp [MeasureKind.unitEnum] at h
      subst h
      norm_num
  | Stress =>
      simp [MeasureKind.unitEnum] at h
      rcases h with rfl | rfl | rfl | rfl <;> norm_num
  | SpecificWeight =>
      simp [MeasureKind.unitEnum] at h
      rcases h with rfl | rfl | rfl | rfl | rfl <;> norm_num
  | EnergyDensity =>
      simp [MeasureKind.unitEnum] at h
      rcases h with rfl | rfl <;> norm_num
  | Length =>
      simp [MeasureKind.unitEnum] at h
      rcases h with rfl | rfl | rfl <;> norm_num

/-- Re-resolving a member's display string yields that member again, for
every table of `src/units/measures.py` (no member's display string is a
different member's name). -/
theorem lookupUnit_display : ∀ (k : MeasureKind), ∀ var ∈ k.unitEnum,
    lookupUnit k.unitEnum var.display = some var := by
  intro k var h
  cases k with
  | Strain =>
      simp [MeasureKind.unitEnum] at h
      subst h
      rfl
  | Stress =>
      simp [MeasureKind.unitEnum] at h
      rcases h with rfl | rfl | rfl | rfl <;> rfl
  | SpecificWeight =>
      simp [MeasureKind.unitEnum] at h
      rcases h with rfl | rfl | rfl | rfl | rfl <;> rfl
  | EnergyDensity =>
      simp [MeasureKind.unitEnum] at h
      rcases h with rfl | rfl <;> rfl
  | Length =>
      simp [MeasureKind.unitEnum] at h
      rcases h with rfl | rfl | rfl <;> rfl

/-- The unit-enum class names are distinct across the measure subclasses,
so enum-class identity coincides with kind equality. -/
theorem enumName_inj {a b : MeasureKind} (h : a.enumName = b.enumName) : a = b := by
  cases a <;> cases b <;> simp_all [MeasureKind.enumName]

/-- Inversion of a successful tensor construction: the stored data is
exactly the data that was passed in. -/
theorem mkTensor_ok {ek : Option MeasureKind} {d : List ℚ} {u : Option String}
    {t : Tensor} (h : mkTensor ek d u = .ok t) :
    t.elementKind = ek ∧ t.data = d := by
  unfold mkTensor at h
  split at h
  · cases h
    exact ⟨rfl, rfl⟩
  · split at h
    · cases h
      exact ⟨rfl, rfl⟩
    · dsimp only at h
      split at h
      · cases h
        exact ⟨rfl, rfl⟩
      · cases h

/-- C1: Measure multiplication resolution.  `SpecificWeight(20, "kN/m³") *
Length(2, "m")` does resolve through the registered
`(SPECIFIC_WEIGHT, LENGTH) → Stress` rule to a Stress of base-unit
magnitude 40000 constructed in `Pa`, and an unregistered pair
(Stress × Stress) fails with the no-rule `TypeError` naming both
dimensions; but the resolver hardcodes the member name `"Pa"` when
constructing the result, so for the repository's own registered rule
`Length × Strain → Length` (`src/units/mul_registry.py`,
`test_symmetric_multiplication`) the evaluation `Length(2, "m") *
Strain(0.01, "")` raises `KeyError: "Pa"` instead of producing a Length in
its base unit — the claim's "result … constructed in that kind's base
unit" fails there. -/
theorem mul_registry_resolution :
    mkMeasure .SpecificWeight 20 "kN/m³" =
      .ok ⟨.SpecificWeight, 20, "kN/m³", ⟨"kN_m3", "kN/m³", 1000⟩⟩ ∧
    mkMeasure .Length 2 "m" = .ok ⟨.Length, 2, "m", ⟨"m", "m", 1⟩⟩ ∧
    Measure.mul mulRegistryRules
        ⟨.SpecificWeight, 20, "kN/m³", ⟨"kN_m3", "kN/m³", 1000⟩⟩
        (.measure ⟨.Length, 2, "m", ⟨"m", "m", 1⟩⟩) =
      .ok ⟨.Stress, 40000, "Pa", ⟨"Pa", "Pa", 1⟩⟩ ∧
    Measure.toBaseUnits ⟨.Stress, 40000, "Pa", ⟨"Pa", "Pa", 1⟩⟩ = 40000 ∧
    mkMeasure .Strain 0.01 "" = .ok ⟨.Strain, 0.01, "", ⟨"NONE", "", 1⟩⟩ ∧
    Measure.mul mulRegistryRules ⟨.Length, 2, "m", ⟨"m", "m", 1⟩⟩
        (.measure ⟨.Strain, 0.01, "", ⟨"NONE", "", 1⟩⟩) =
      .error (.keyError "Pa") ∧
    Measure.mul mulRegistryRules ⟨.Stress, 1, "kPa", ⟨"kPa", "kPa", 1000⟩⟩
        (.measure ⟨.Stress, 1, "kPa", ⟨"kPa", "kPa", 1000⟩⟩) =
      .error (.typeError (noMulRuleMsg "STRESS" "STRESS")) := by
  have h40 : Measure.mul mulRegistryRules
      ⟨.SpecificWeight, 20, "kN/m³", ⟨"kN_m3", "kN/m³", 1000⟩⟩
      (.measure ⟨.Length, 2, "m", ⟨"m", "m", 1⟩⟩) =
      .ok ⟨.Stress, 20 * 1000 * (2 * 1), "Pa", ⟨"Pa", "Pa", 1⟩⟩ := rfl
  have hv : (20 * 1000 * (2 * 1) : ℚ) = 40000 := by norm_num
  refine ⟨rfl, rfl, ?_, ?_, rfl, rfl, rfl⟩
  · rw [h40, hv]
  · show (40000 * 1 : ℚ) = 40000
    norm_num

/-- C2: Measure ÷ Measure never reaches the Division Registry.
`BaseMeasure.__truediv__` returns `NotImplemented` for a measure operand
(the source carries a TODO for registry division), so
`Stress(100, "kPa") / Length(2, "m")` raises the interpreter's
unsupported-operand `TypeError` — even though
`DivisionRegistry.resolve` itself, applied to the same operands with the
rules of `src/units/div_registry.py`, would return the SpecificWeight of
base-unit magnitude 50000 that the claim (and the repository's own
`test_division_rule`) expects. -/
theorem division_dispatch :
    mkMeasure .Stress 100 "kPa" = .ok ⟨.Stress, 100, "kPa", ⟨"kPa", "kPa", 1000⟩⟩ ∧
    mkMeasure .Length 2 "m" = .ok ⟨.Length, 2, "m", ⟨"m", "m", 1⟩⟩ ∧
    Measure.truediv ⟨.Stress, 100, "kPa", ⟨"kPa", "kPa", 1000⟩⟩
        (.measure ⟨.Length, 2, "m", ⟨"m", "m", 1⟩⟩) =
      .error (.unsupportedOperand "/" "Stress" "Length") ∧
    divResolve divRegistryRules ⟨.Stress, 100, "kPa", ⟨"kPa", "kPa", 1000⟩⟩
        ⟨.Length, 2, "m", ⟨"m", "m", 1⟩⟩ =
      .ok ⟨.SpecificWeight, 50000, "N/m³", ⟨"N_m3", "N/m³", 1⟩⟩ ∧
    Measure.toBaseUnits ⟨.SpecificWeight, 50000, "N/m³", ⟨"N_m3", "N/m³", 1⟩⟩ =
      50000 ∧
    divResolve divRegistryRules ⟨.Stress, 1, "kPa", ⟨"kPa", "kPa", 1000⟩⟩
        ⟨.Stress, 1, "kPa", ⟨"kPa", "kPa", 1000⟩⟩ =
      .error (.typeError (noDivRuleMsg "STRESS" "STRESS")) := by
  have h50 : divResolve divRegistryRules ⟨.Stress, 100, "kPa", ⟨"kPa", "kPa", 1000⟩⟩
      ⟨.Length, 2, "m", ⟨"m", "m", 1⟩⟩ =
      .ok ⟨.SpecificWeight, 100 * 1000 / (2 * 1), "N/m³", ⟨"N_m3", "N/m³", 1⟩⟩ := rfl
  have hv : (100 * 1000 / (2 * 1) : ℚ) = 50000 := by norm_num
  refine ⟨rfl, rfl, rfl, ?_, ?_, rfl⟩
  · rw [h50, hv]
  · show (50000 * 1 : ℚ) = 50000
    norm_num

/-- C8 counterexample: elementwise arithmetic between two Tensors of
identical shape and element kind is not supported — `BaseTensor` defines
no arithmetic methods, so the addition of two 2-element kPa stress tensors
raises the interpreter's generic unsupported-operand `TypeError` (and a
shape mismatch raises exactly the same error, not a dedicated
`ShapeMismatch`). -/
theorem tensor_elementwise_counterexample :
    Tensor.binOp .add ⟨some .Stress, [100000, 200000], some "kPa"⟩
        ⟨some .Stress, [300000, 400000], some "kPa"⟩ =
      .error (.unsupportedOperand "+" "StressTensor" "StressTensor") ∧
    Tensor.binOp .add ⟨some .Stress, [100000], some "kPa"⟩
        ⟨some .Stress, [100000, 200000], some "kPa"⟩ =
      .error (.unsupportedOperand "+" "StressTensor" "StressTensor") :=
  ⟨rfl, rfl⟩

/-- C8 amended: every elementwise arithmetic operator between every pair
of Tensors fails with the interpreter's unsupported-operand `TypeError`,
regardless of shape, unit or element kind; no `ShapeMismatch` or
`UnsupportedOperand` conditions of the claimed kind exist in the code. -/
theorem tensor_elementwise_unsupported :
    ∀ (op : TensorBinOp) (t1 t2 : Tensor),
      Tensor.binOp op t1 t2 =
        .error (.unsupportedOperand op.symbol (tensorClassName t1.elementKind)
          (tensorClassName t2.elementKind)) := by
  intro op t1 t2
  rfl

/-- C9 counterexample: `Length(1, "furlong")` fails with the unknown-unit
`ValueError`, but its message — `Unknown unit: furlong in <enum
'LengthUnit'>` — does not name the set of valid tokens: the valid Length
token `cm` occurs nowhere in it. -/
theorem unknown_unit_counterexample :
    mkMeasure .Length 1 "furlong" =
      .error (.valueError (unknownUnitMsg "furlong" "LengthUnit")) ∧
    unknownUnitMsg "furlong" "LengthUnit" =
      "Unknown unit: furlong in <enum \x27LengthUnit\x27>" ∧
    (⟨"cm", "cm", 0.01⟩ : UnitVariant) ∈ MeasureKind.Length.unitEnum ∧
    listContainsSub "cm".toList
      (unknownUnitMsg "furlong" "LengthUnit").toList = false := by
  refine ⟨rfl, rfl, ?_, ?_⟩
  · exact List.mem_cons_of_mem _ (List.mem_cons_self _ _)
  · rfl

/-- C3: Measure addition and subtraction.  For two validly constructed
measures of the same subtype the result carries that subtype and the left
operand's unit token, and its base-unit magnitude is the sum
(respectively difference) of the operands' base-unit magnitudes; for
measures of different dimension tags both operations fail with the
dimension-mismatch `TypeError`. -/
theorem measure_add_sub_spec :
    (∀ (k : MeasureKind) (v1 v2 : ℚ) (u1 u2 : String) (a b : Measure),
        mkMeasure k v1 u1 = .ok a → mkMeasure k v2 u2 = .ok b →
        ∃ c, Measure.add a b = .ok c ∧ c.kind = k ∧ c.unit = u1 ∧
          c.toBaseUnits = a.toBaseUnits + b.toBaseUnits) ∧
    (∀ (k : MeasureKind) (v1 v2 : ℚ) (u1 u2 : String) (a b : Measure),
        mkMeasure k v1 u1 = .ok a → mkMeasure k v2 u2 = .ok b →
        ∃ c, Measure.sub a b = .ok c ∧ c.kind = k ∧ c.unit = u1 ∧
          c.toBaseUnits = a.toBaseUnits - b.toBaseUnits) ∧
    (∀ a b : Measure, a.kind.dimension ≠ b.kind.dimension →
        Measure.add a b =
          .error (.typeError "Cannot add different physical dimensions") ∧
        Measure.sub a b =
          .error (.typeError "Cannot subtract different physical dimensions")) := by
  refine ⟨?_, ?_, ?_⟩
  · intro k v1 v2 u1 u2 a b ha hb
    obtain ⟨hak, hav, hau, hal⟩ := mkMeasure_ok ha
    obtain ⟨hbk, hbv, hbu, hbl⟩ := mkMeasure_ok hb
    have hf : a.userUnit.factor ≠ 0 :=
      ne_of_gt (factor_pos k _ (lookupUnit_mem hal))
    have hcond : ¬ a.kind.enumName ≠ b.kind.enumName := by
      rw [hak, hbk]
      simp
    refine ⟨⟨k, (a.toBaseUnits + b.toBaseUnits) / a.factor, u1, a.userUnit⟩,
      ?_, rfl, rfl, ?_⟩
    · unfold Measure.add
      rw [if_neg hcond, hak, hau]
      exact mkMeasure_of_lookup _ hal
    · show (a.toBaseUnits + b.toBaseUnits) / a.factor * a.userUnit.factor =
        a.toBaseUnits + b.toBaseUnits
      exact div_mul_cancel₀ _ hf
  · intro k v1 v2 u1 u2 a b ha hb
    obtain ⟨hak, hav, hau, hal⟩ := mkMeasure_ok ha
    obtain ⟨hbk, hbv, hbu, hbl⟩ := mkMeasure_ok hb
    have hf : a.userUnit.factor ≠ 0 :=
      ne_of_gt (factor_pos k _ (lookupUnit_mem hal))
    have hcond : ¬ a.kind.enumName ≠ b.kind.enumName := by
      rw [hak, hbk]
      simp
    refine ⟨⟨k, (a.toBaseUnits - b.toBaseUnits) / a.factor, u1, a.userUnit⟩,
      ?_, rfl, rfl, ?_⟩
    · unfold Measure.sub
      rw [if_neg hcond, hak, hau]
      exact mkMeasure_of_lookup _ hal
    · show (a.toBaseUnits - b.toBaseUnits) / a.factor * a.userUnit.factor =
        a.toBaseUnits - b.toBaseUnits
      exact div_mul_cancel₀ _ hf
  · intro a b hdim
    have hname : a.kind.enumName ≠ b.kind.enumName := by
      intro h
      exact hdim (by rw [enumName_inj h])
    constructor
    · unfold Measure.add
      rw [if_pos hname]
    · unfold Measure.sub
      rw [if_pos hname]

/-- Witness for C3: `Length(2, "m") + Length(50, "cm")` succeeds, stays a
Length in the token `"m"` and sums the base magnitudes, while
`Stress(1, "kPa") + Length(1, "m")` fails with the dimension-mismatch
`TypeError`. -/
theorem measure_add_sub_spec_witness :
    (∃ c, Measure.add ⟨.Length, 2, "m", ⟨"m", "m", 1⟩⟩
        ⟨.Length, 50, "cm", ⟨"cm", "cm", 0.01⟩⟩ = .ok c ∧
      c.kind = .Length ∧ c.unit = "m" ∧
      c.toBaseUnits = Measure.toBaseUnits ⟨.Length, 2, "m", ⟨"m", "m", 1⟩⟩ +
        Measure.toBaseUnits ⟨.Length, 50, "cm", ⟨"cm", "cm", 0.01⟩⟩) ∧
    Measure.add ⟨.Stress, 1, "kPa", ⟨"kPa", "kPa", 1000⟩⟩
        ⟨.Length, 1, "m", ⟨"m", "m", 1⟩⟩ =
      .error (.typeError "Cannot add different physical dimensions") := by
  constructor
  · exact measure_add_sub_spec.1 .Length 2 50 "m" "cm" _ _ rfl rfl
  · exact (measure_add_sub_spec.2.2 _ _ (by decide)).1

/-- C4: equality of two measures of the same kind holds exactly when their
base-unit magnitudes agree, and then their hashes (the hashed
`(to_base_units, unit-enum)` data) agree too; in particular
`Stress(1000, "kPa") == Stress(1, "MPa")` and
`Stress(100, "kPa") == Stress(0.1, "MPa")`. -/
theorem measure_eq_hash_spec :
    (∀ a b : Measure, a.kind = b.kind →
      (Measure.eq a (.measure b) = .ok true ↔ a.toBaseUnits = b.toBaseUnits) ∧
      (Measure.eq a (.measure b) = .ok true → Measure.hash a = Measure.hash b)) ∧
    Measure.eq ⟨.Stress, 1000, "kPa", ⟨"kPa", "kPa", 1000⟩⟩
      (.measure ⟨.Stress, 1, "MPa", ⟨"MPa", "MPa", 1000000⟩⟩) = .ok true ∧
    Measure.eq ⟨.Stress, 100, "kPa", ⟨"kPa", "kPa", 1000⟩⟩
      (.measure ⟨.Stress, 0.1, "MPa", ⟨"MPa", "MPa", 1000000⟩⟩) = .ok true ∧
    Measure.hash ⟨.Stress, 1000, "kPa", ⟨"kPa", "kPa", 1000⟩⟩ =
      Measure.hash ⟨.Stress, 1, "MPa", ⟨"MPa", "MPa", 1000000⟩⟩ := by
  refine ⟨?_, ?_, ?_, ?_⟩
  · intro a b hk
    have hname : a.kind.enumName = b.kind.enumName := by rw [hk]
    have hcv : Measure.cmpValue a (.measure b) = .ok b.toBaseUnits := by
      unfold Measure.cmpValue
      rw [hname]
      simp
    have hiff : Measure.eq a (.measure b) = .ok true ↔
        a.toBaseUnits = b.toBaseUnits := by
      unfold Measure.eq
      rw [hcv]
      simp [Except.map]
    refine ⟨hiff, fun h => ?_⟩
    have hbase := hiff.mp h
    unfold Measure.hash
    rw [hbase, hname]
  · unfold Measure.eq Measure.cmpValue
    norm_num [Measure.toBaseUnits, Measure.factor, Except.map]
  · unfold Measure.eq Measure.cmpValue
    norm_num [Measure.toBaseUnits, Measure.factor, Except.map]
  · unfold Measure.hash
    norm_num [Measure.toBaseUnits, Measure.factor]

/-- Witness for C4: the equality-versus-base-magnitude equivalence and the
equal-hash consequence, instantiated at `Stress(1000, "kPa")` and
`Stress(1, "MPa")`. -/
theorem measure_eq_hash_spec_witness :
    (Measure.eq ⟨.Stress, 1000, "kPa", ⟨"kPa", "kPa", 1000⟩⟩
        (.measure ⟨.Stress, 1, "MPa", ⟨"MPa", "MPa", 1000000⟩⟩) = .ok true ↔
      Measure.toBaseUnits ⟨.Stress, 1000, "kPa", ⟨"kPa", "kPa", 1000⟩⟩ =
        Measure.toBaseUnits ⟨.Stress, 1, "MPa", ⟨"MPa", "MPa", 1000000⟩⟩) ∧
    (Measure.eq ⟨.Stress, 1000, "kPa", ⟨"kPa", "kPa", 1000⟩⟩
        (.measure ⟨.Stress, 1, "MPa", ⟨"MPa", "MPa", 1000000⟩⟩) = .ok true →
      Measure.hash ⟨.Stress, 1000, "kPa", ⟨"kPa", "kPa", 1000⟩⟩ =
        Measure.hash ⟨.Stress, 1, "MPa", ⟨"MPa", "MPa", 1000000⟩⟩) :=
  measure_eq_hash_spec.1 _ _ rfl

/-- C5: converting a validly constructed measure to its own unit is the
identity on the value, converting to any resolvable unit and back restores
the value exactly (the embedding computes over exact rationals, so the
floating-point tolerance of the claim is met with equality), and `convert`
always preserves the measure subtype. -/
theorem measure_convert_round_trip :
    ∀ (k : MeasureKind) (v : ℚ) (u : String) (m : Measure),
      mkMeasure k v u = .ok m →
      (∃ m1, m.convert u = .ok m1 ∧ m1.kind = k ∧ m1.value = v) ∧
      (∀ (tokB : String) (vB : UnitVariant),
        lookupUnit k.unitEnum tokB = some vB →
        ∃ m2 m3, m.convert tokB = .ok m2 ∧ m2.kind = k ∧
          m2.convert u = .ok m3 ∧ m3.kind = k ∧ m3.value = v) := by
  intro k v u m hm
  obtain ⟨hk, hv, hu, hl⟩ := mkMeasure_ok hm
  have hpmem := lookupUnit_mem hl
  have hpf : m.userUnit.factor ≠ 0 := ne_of_gt (factor_pos k _ hpmem)
  constructor
  · refine ⟨⟨k, m.value * m.factor / m.userUnit.factor, m.userUnit.display,
      m.userUnit⟩, ?_, rfl, ?_⟩
    · unfold Measure.convert
      rw [hk, hl]
      exact mkMeasure_of_lookup _ (lookupUnit_display k _ hpmem)
    · show m.value * m.factor / m.userUnit.factor = v
      exact (mul_div_cancel_right₀ _ hpf).trans hv
  · intro tokB vB hlB
    have hBmem := lookupUnit_mem hlB
    have hBf : vB.factor ≠ 0 := ne_of_gt (factor_pos k _ hBmem)
    refine ⟨⟨k, m.value * m.factor / vB.factor, vB.display, vB⟩,
      ⟨k, m.value * m.factor / vB.factor * vB.factor / m.userUnit.factor,
        m.userUnit.display, m.userUnit⟩, ?_, rfl, ?_, rfl, ?_⟩
    · unfold Measure.convert
      rw [hk, hlB]
      exact mkMeasure_of_lookup _ (lookupUnit_display k _ hBmem)
    · unfold Measure.convert
      dsimp only
      rw [hl]
      exact mkMeasure_of_lookup _ (lookupUnit_display k _ hpmem)
    · show m.value * m.factor / vB.factor * vB.factor / m.userUnit.factor = v
      rw [div_mul_cancel₀ _ hBf]
      exact (mul_div_cancel_right₀ _ hpf).trans hv

/-- Witness for C5: `Stress(1000, "kPa")` converted to `"kPa"` keeps value
1000, and converted to `"MPa"` and back to `"kPa"` restores value 1000,
staying a Stress throughout. -/
theorem measure_convert_round_trip_witness :
    (∃ m1, Measure.convert ⟨.Stress, 1000, "kPa", ⟨"kPa", "kPa", 1000⟩⟩ "kPa" =
        .ok m1 ∧ m1.kind = .Stress ∧ m1.value = 1000) ∧
    (∃ m2 m3, Measure.convert ⟨.Stress, 1000, "kPa", ⟨"kPa", "kPa", 1000⟩⟩ "MPa" =
        .ok m2 ∧ m2.kind = .Stress ∧ m2.convert "kPa" = .ok m3 ∧
      m3.kind = .Stress ∧ m3.value = 1000) := by
  have h := measure_convert_round_trip .Stress 1000 "kPa" _ rfl
  exact ⟨h.1, h.2 "MPa" ⟨"MPa", "MPa", 1000000⟩ rfl⟩

/-- C10: scalar multiplication commutes — `__rmul__` delegates to
`__mul__`, so `k * m` and `m * k` agree, and both produce a measure of the
same subtype with the value scaled and the unit token unchanged. -/
theorem scalar_mul_commutes :
    ∀ (rules : Rules) (m : Measure) (x : ℚ), Measure.Valid m →
      Measure.rmul rules m (.scalar x) = Measure.mul rules m (.scalar x) ∧
      Measure.mul rules m (.scalar x) =
        .ok ⟨m.kind, m.value * x, m.unit, m.userUnit⟩ := by
  intro rules m x hv
  refine ⟨rfl, ?_⟩
  show mkMeasure m.kind (m.value * x) m.unit = _
  exact mkMeasure_of_lookup _ hv

/-- Witness for C10: `Length(2, "m") * 3` and `3 * Length(2, "m")` agree
and give a Length of value 6 in `"m"`. -/
theorem scalar_mul_commutes_witness :
    Measure.rmul mulRegistryRules ⟨.Length, 2, "m", ⟨"m", "m", 1⟩⟩ (.scalar 3) =
      Measure.mul mulRegistryRules ⟨.Length, 2, "m", ⟨"m", "m", 1⟩⟩ (.scalar 3) ∧
    Measure.mul mulRegistryRules ⟨.Length, 2, "m", ⟨"m", "m", 1⟩⟩ (.scalar 3) =
      .ok ⟨.Length, 2 * 3, "m", ⟨"m", "m", 1⟩⟩ :=
  scalar_mul_commutes mulRegistryRules ⟨.Length, 2, "m", ⟨"m", "m", 1⟩⟩ 3 rfl

/-- C6 counterexample: constructing a stress tensor from the raw array
`[100]` with the explicit unit `"kPa"` stores `100` unchanged — not the
base-unit magnitude `100000` that the spec-worded construction
(`Tensor.fromArraySpec`) produces — and indexing then reinterprets the
stored `100` as base units, yielding `Stress(0.1, "kPa")` (100 Pa), so the
claimed base-unit data invariant fails for raw-array construction. -/
theorem tensor_from_array_counterexample :
    Tensor.fromArray (some .Stress) [100] (some "kPa") =
      .ok ⟨some .Stress, [100], some "kPa"⟩ ∧
    Tensor.fromArraySpec (some .Stress) [100] (some "kPa") =
      .ok ⟨some .Stress, [100000], some "kPa"⟩ ∧
    ([100] : List ℚ) ≠ [100000] ∧
    Tensor.getItem ⟨some .Stress, [100], some "kPa"⟩ 0 =
      .ok (.measureItem ⟨.Stress, 100 / 1000, "kPa", ⟨"kPa", "kPa", 1000⟩⟩) ∧
    Measure.toBaseUnits ⟨.Stress, 100 / 1000, "kPa", ⟨"kPa", "kPa", 1000⟩⟩ =
      100 := by
  refine ⟨rfl, ?_, ?_, rfl, ?_⟩
  · have h : Tensor.fromArraySpec (some .Stress) [100] (some "kPa") =
        .ok ⟨some .Stress, [100 * 1000], some "kPa"⟩ := rfl
    rw [h]
    norm_num
  · intro h
    injection h with h1 h2
    norm_num at h1
  · show (100 / 1000 * 1000 : ℚ) = 100
    norm_num

/-- C6 amended: the stored data is exactly what construction supplied —
building from a list of Measures stores their `to_base_units` magnitudes,
indexed assignment stores the base-unit magnitude of the assigned value,
and `convert` never touches the data; but building from a raw array plus an
explicit unit stores the raw values unchanged (they are interpreted as
already being base-unit magnitudes and are never rescaled by the display
unit's factor). -/
theorem tensor_base_unit_storage :
    (∀ (ek : Option MeasureKind) (ms : List Measure) (u : Option String)
        (t : Tensor),
        Tensor.fromList ek (ms.map .measure) u = .ok t →
        t.data = ms.map Measure.toBaseUnits) ∧
    (∀ (t : Tensor) (i : Nat) (v : TensorValue),
        (Tensor.setItem t i v).data = t.data.set i (toFloat v)) ∧
    (∀ (t : Tensor) (d : String) (t2 : Tensor),
        Tensor.convert t d = .ok t2 → t2.data = t.data) ∧
    (∀ (ek : Option MeasureKind) (arr : List ℚ) (u : Option String)
        (t : Tensor),
        Tensor.fromArray ek arr u = .ok t → t.data = arr) := by
  refine ⟨?_, ?_, ?_, ?_⟩
  · intro ek ms u t h
    unfold Tensor.fromList at h
    split at h
    · cases h
    · have hd := (mkTensor_ok h).2
      rw [List.map_map] at hd
      exact hd
    · have hd := (mkTensor_ok h).2
      rw [List.map_map] at hd
      exact hd
  · intro t i v
    rfl
  · intro t d t2 h
    unfold Tensor.convert at h
    split at h
    · split at h
      · exact (mkTensor_ok h).2
      · cases h
    · exact (mkTensor_ok h).2
  · intro ek arr u t h
    exact (mkTensor_ok h).2

/-- Witness for C6 amended: a stress tensor built from
`[Stress(100, "kPa"), Stress(200, "kPa")]` stores the mapped base-unit
magnitudes, and one built from the raw array `[100]` with unit `"kPa"`
stores `[100]` unchanged. -/
theorem tensor_base_unit_storage_witness :
    (⟨some .Stress, [100 * 1000, 200 * 1000], some "kPa"⟩ : Tensor).data =
      [(⟨.Stress, 100, "kPa", ⟨"kPa", "kPa", 1000⟩⟩ : Measure),
        ⟨.Stress, 200, "kPa", ⟨"kPa", "kPa", 1000⟩⟩].map Measure.toBaseUnits ∧
    (⟨some .Stress, [100], some "kPa"⟩ : Tensor).data = [100] := by
  constructor
  · exact tensor_base_unit_storage.1 (some .Stress)
      [⟨.Stress, 100, "kPa", ⟨"kPa", "kPa", 1000⟩⟩,
        ⟨.Stress, 200, "kPa", ⟨"kPa", "kPa", 1000⟩⟩] none _ rfl
  · exact tensor_base_unit_storage.2.2.2 (some .Stress) [100] (some "kPa") _ rfl

/-- C7: a tensor built from `[Stress(100, "kPa"), Stress(200, "kPa")]`
stores the base magnitudes `[100000, 200000]` with inferred display unit
`"kPa"`; scalar indexing divides the stored base value by the display
unit's factor and re-wraps it as a Stress, so element 0 and element 1 have
base magnitudes 100000 and 200000, and after `convert("MPa")` (which only
relabels) element 0 has value 0.1. -/
theorem tensor_indexing :
    Tensor.fromList (some .Stress)
        [.measure ⟨.Stress, 100, "kPa", ⟨"kPa", "kPa", 1000⟩⟩,
          .measure ⟨.Stress, 200, "kPa", ⟨"kPa", "kPa", 1000⟩⟩] none =
      .ok ⟨some .Stress, [100000, 200000], some "kPa"⟩ ∧
    Tensor.getItem ⟨some .Stress, [100000, 200000], some "kPa"⟩ 0 =
      .ok (.measureItem ⟨.Stress, 100000 / 1000, "kPa", ⟨"kPa", "kPa", 1000⟩⟩) ∧
    Measure.toBaseUnits ⟨.Stress, 100000 / 1000, "kPa", ⟨"kPa", "kPa", 1000⟩⟩ =
      100000 ∧
    Tensor.getItem ⟨some .Stress, [100000, 200000], some "kPa"⟩ 1 =
      .ok (.measureItem ⟨.Stress, 200000 / 1000, "kPa", ⟨"kPa", "kPa", 1000⟩⟩) ∧
    Measure.toBaseUnits ⟨.Stress, 200000 / 1000, "kPa", ⟨"kPa", "kPa", 1000⟩⟩ =
      200000 ∧
    Tensor.convert ⟨some .Stress, [100000, 200000], some "kPa"⟩ "MPa" =
      .ok ⟨some .Stress, [100000, 200000], some "MPa"⟩ ∧
    Tensor.getItem ⟨some .Stress, [100000, 200000], some "MPa"⟩ 0 =
      .ok (.measureItem
        ⟨.Stress, 100000 / 1000000, "MPa", ⟨"MPa", "MPa", 1000000⟩⟩) ∧
    Measure.value ⟨.Stress, 100000 / 1000000, "MPa", ⟨"MPa", "MPa", 1000000⟩⟩ =
      0.1 := by
  have hfl : Tensor.fromList (some .Stress)
      [.measure ⟨.Stress, 100, "kPa", ⟨"kPa", "kPa", 1000⟩⟩,
        .measure ⟨.Stress, 200, "kPa", ⟨"kPa", "kPa", 1000⟩⟩] none =
      .ok ⟨some .Stress, [100 * 1000, 200 * 1000], some "kPa"⟩ := rfl
  refine ⟨?_, rfl, ?_, rfl, ?_, rfl, rfl, ?_⟩
  · rw [hfl]
    norm_num
  · show (100000 / 1000 * 1000 : ℚ) = 100000
    norm_num
  · show (200000 / 1000 * 1000 : ℚ) = 200000
    norm_num
  · show (100000 / 1000000 : ℚ) = 0.1
    norm_num

/-- C9 amended: a unit token that resolves neither by exact member name
nor by exact display string makes construction fail with the unknown-unit
`ValueError`, whose message names the offending token and the quantity's
unit-enum class (but not the set of valid tokens); lookup tries the exact
member-name match first, then the exact display-string match, and a
resolvable token makes construction succeed. -/
theorem unknown_unit_spec :
    ∀ (k : MeasureKind) (v : ℚ) (tok : String),
      (lookupUnit k.unitEnum tok = none →
        mkMeasure k v tok = .error (.valueError (unknownUnitMsg tok k.enumName))) ∧
      (∀ p : UnitVariant, lookupUnit k.unitEnum tok = some p →
        mkMeasure k v tok = .ok ⟨k, v, tok, p⟩) ∧
      (∀ p : UnitVariant, lookupByName k.unitEnum tok = some p →
        lookupUnit k.unitEnum tok = some p) := by
  intro k v tok
  refine ⟨?_, ?_, ?_⟩
  · intro h
    unfold mkMeasure
    rw [h]
  · intro p h
    exact mkMeasure_of_lookup v h
  · intro p h
    unfold lookupUnit
    rw [h]

/-- Witness for C9 amended: `Length(1, "furlong")` fails with the
unknown-unit `ValueError`, while the token `"kPa"` resolves by name for
Stress and construction succeeds. -/
theorem unknown_unit_spec_witness :
    mkMeasure .Length 1 "furlong" =
      .error (.valueError (unknownUnitMsg "furlong" "LengthUnit")) ∧
    mkMeasure .Stress 5 "kPa" = .ok ⟨.Stress, 5, "kPa", ⟨"kPa", "kPa", 1000⟩⟩ ∧
    lookupUnit MeasureKind.Stress.unitEnum "kPa" =
      some ⟨"kPa", "kPa", 1000⟩ :=
  ⟨(unknown_unit_spec .Length 1 "furlong").1 rfl,
    (unknown_unit_spec .Stress 5 "kPa").2.1 ⟨"kPa", "kPa", 1000⟩ rfl,
    (unknown_unit_spec .Stress 5 "kPa").2.2 ⟨"kPa", "kPa", 1000⟩ rfl⟩

end Galatea
